import Mathlib

/-!
Shallow embedding of the GaiaAndSugarscape rendering component
(`src/js/CACanvas.js`): a double-buffered grid canvas.

The off-screen 2D drawing context is modelled as a trace of completed
drawing operations (`DrawCmd`), together with a pixel-level rasterization
semantics (`rasterize`): a later opaque drawing operation overwrites an
earlier one on the pixels it covers (painter's algorithm).

Platform semantics that the source relies on is modelled faithfully where
it is crisp and deterministic:
  * `Math.floor(cSize / 2)` is integer floor division (`Int.fdiv _ 2`);
  * `CanvasRenderingContext2D.arc` raises an `IndexSizeError` DOMException
    when the radius is negative (WHATWG HTML standard), so `draw` with the
    marker flag fails after the square fill whenever `offset - 1 < 0`;
  * `document.getElementById` on an unknown id yields `null`, and the
    subsequent `.getContext` dereference throws — surfaced here as
    `SurfaceNotFound`;
  * assigning to the buffer's `width`/`height` follows the WHATWG
    reflection of an `unsigned long` content attribute: ToUint32
    conversion, then out-of-range values (above `2147483647`) fall back
    to the defaults 300 and 150 (`canvasDimension`);
  * `drawImage` of the whole buffer onto the whole visible canvas is
    modelled as a `Blit` record with the §9 blit-capability semantics
    (sampled copy, scaling to fit; identity sampling when the regions
    have equal size).
-/

/-- A completed drawing operation recorded on a 2D context. -/
inductive DrawCmd where
  | fillRect (x y w h : Int) (color : String)
  | fillCircle (cx cy r : Int) (color : String)
  | strokeCircle (cx cy r : Int) (color : String)
  | strokeLine (x1 y1 x2 y2 : Int) (color : String)
  deriving DecidableEq, Repr

/-- The pixels an operation covers (idealized rasterization: a filled
rectangle covers its half-open pixel box, a filled circle the integer
points within its radius, a stroked circle the integer points exactly on
it, a stroked segment the collinear integer points between its ends). -/
def DrawCmd.covers (cmd : DrawCmd) (px py : Int) : Bool :=
  match cmd with
  | .fillRect x y w h _ =>
      decide (x ≤ px ∧ px < x + w ∧ y ≤ py ∧ py < y + h)
  | .fillCircle cx cy r _ =>
      decide ((px - cx) ^ 2 + (py - cy) ^ 2 ≤ r ^ 2)
  | .strokeCircle cx cy r _ =>
      decide ((px - cx) ^ 2 + (py - cy) ^ 2 = r ^ 2)
  | .strokeLine x1 y1 x2 y2 _ =>
      decide ((px - x1) * (y2 - y1) = (py - y1) * (x2 - x1) ∧
        min x1 x2 ≤ px ∧ px ≤ max x1 x2 ∧ min y1 y2 ≤ py ∧ py ≤ max y1 y2)

/-- The (opaque) color an operation paints. -/
def DrawCmd.color : DrawCmd → String
  | .fillRect _ _ _ _ c => c
  | .fillCircle _ _ _ c => c
  | .strokeCircle _ _ _ c => c
  | .strokeLine _ _ _ _ c => c

/-- Pixel content of a command trace: the last operation covering a pixel
determines its color; `none` is the backend's blank/initial content. -/
def rasterize (cmds : List DrawCmd) (px py : Int) : Option String :=
  cmds.foldl (fun acc cmd => if cmd.covers px py then some cmd.color else acc) none

/-- Errors surfaced by the component (spec §7 taxonomy plus the
platform's `IndexSizeError` raised by `arc` on a negative radius). -/
inductive CAError where
  | InvalidDimension
  | SurfaceNotFound
  | IndexSizeError
  deriving DecidableEq, Repr

/-- State of a `CACanvas` instance: `size` and `cSize` as assigned by the
constructor, the off-screen buffer's dimensions (`buffer.width` and
`buffer.height`), and the operations so far recorded on `this.ctx`. -/
structure CACanvas where
  size : Int
  cSize : Int
  bufferWidth : Int
  bufferHeight : Int
  commands : List DrawCmd
  deriving DecidableEq, Repr

/-- Platform semantics of assigning an integer to a canvas `width` or
`height` IDL attribute (WHATWG reflection of an `unsigned long` content
attribute): the value is first converted with ToUint32 (reduction modulo
`2^32`, always yielding a value in `[0, 2^32)`), and when the result
lies outside `[0, 2147483647]` the attribute falls back to its default
(300 for `width`, 150 for `height`) instead. -/
def canvasDimension (v : Int) (dflt : Int) : Int :=
  let u := v % 4294967296
  if u ≤ 2147483647 then u else dflt

/-- `constructor(size, cSize)` of `CACanvas` (the JS default for `cSize`
is 20; callers here always pass it explicitly): stores the fields and
assigns `size * cSize` to the buffer's `width` and `height` attributes,
each going through the reflection semantics of `canvasDimension`. No
validation is performed by the constructor itself. -/
def CACanvas.construct (size : Int) (cSize : Int) : CACanvas :=
  { size := size
    cSize := cSize
    bufferWidth := canvasDimension (size * cSize) 300
    bufferHeight := canvasDimension (size * cSize) 150
    commands := [] }

/-- Construction as a fallible operation. The JS constructor contains no
validation and no throwing call, so it always succeeds. -/
def CACanvas.create (size : Int) (cSize : Int) : Except CAError CACanvas :=
  Except.ok (CACanvas.construct size cSize)

/-- `draw(x, y, cellColor, circle, circleColor)`: fills the cell square,
then, when `circle` is true, draws the agent marker. `this.ctx.arc` is
called with radius `offset - 1`; a negative radius raises
`IndexSizeError`, aborting the call after the square fill (the earlier
buffer mutation stands). Returns the (possibly partially) mutated state
together with the thrown error or the returned `cSize`. -/
def CACanvas.draw (s : CACanvas) (x y : Int) (cellColor : String)
    (circle : Bool) (circleColor : String) : CACanvas × Except CAError Int :=
  let afterRect : CACanvas :=
    { s with commands := s.commands ++
        [DrawCmd.fillRect (x * s.cSize) (y * s.cSize) s.cSize s.cSize cellColor] }
  if circle = true then
    let offset : Int := Int.fdiv s.cSize 2
    if offset - 1 < 0 then
      (afterRect, Except.error CAError.IndexSizeError)
    else
      let afterCircle : CACanvas :=
        { afterRect with commands := afterRect.commands ++
            [DrawCmd.fillCircle (x * s.cSize + offset) (y * s.cSize + offset)
              (offset - 1) circleColor,
             DrawCmd.strokeCircle (x * s.cSize + offset) (y * s.cSize + offset)
              (offset - 1) "#000000"] }
      (afterCircle, Except.ok s.cSize)
  else
    (afterRect, Except.ok s.cSize)

/-- `drawLine(x1, y1, x2, y2)`: strokes a black segment between the pixel
centers of the two named cells. No operation in it can throw. -/
def CACanvas.drawLine (s : CACanvas) (x1 y1 x2 y2 : Int) : CACanvas :=
  let offset : Int := Int.fdiv s.cSize 2
  { s with commands := s.commands ++
      [DrawCmd.strokeLine (x1 * s.cSize + offset) (y1 * s.cSize + offset)
        (x2 * s.cSize + offset) (y2 * s.cSize + offset) "#000000"] }

/-- One `drawImage` call recorded on a visible canvas: the source trace
and the source and destination regions. -/
structure Blit where
  src : List DrawCmd
  sx : Int
  sy : Int
  sw : Int
  sh : Int
  dx : Int
  dy : Int
  dw : Int
  dh : Int
  deriving DecidableEq, Repr

/-- Whether a pixel lies in the blit's destination region. -/
def Blit.inDest (b : Blit) (px py : Int) : Bool :=
  decide (b.dx ≤ px ∧ px < b.dx + b.dw ∧ b.dy ≤ py ∧ py < b.dy + b.dh)

/-- The source pixel a destination pixel samples: scaling to fit the
destination region (identity when the regions have equal size). -/
def Blit.sample (b : Blit) (px py : Int) : Option String :=
  rasterize b.src (b.sx + (px - b.dx) * b.sw / b.dw)
    (b.sy + (py - b.dy) * b.sh / b.dh)

/-- A visible canvas element: fixed pixel dimensions and the blits drawn
onto it so far. -/
structure Surface where
  width : Int
  height : Int
  blits : List Blit
  deriving DecidableEq, Repr

/-- Pixel content of a visible surface: the last blit whose destination
region covers the pixel determines it. -/
def Surface.pixel (surf : Surface) (px py : Int) : Option String :=
  surf.blits.foldl
    (fun acc b => if b.inDest px py then b.sample px py else acc) none

/-- The hosting document: visible canvas elements keyed by id. -/
def Document : Type := List (String × Surface)

/-- `document.getElementById`: the first element with the given id, if
any. -/
def Document.getElementById (doc : Document) (id : String) : Option Surface :=
  match doc with
  | [] => none
  | (k, surf) :: rest =>
      if k = id then some surf else Document.getElementById rest id

/-- Replacing the surface stored under an id (the in-place mutation of
the found element). -/
def Document.setSurface (doc : Document) (id : String) (surf : Surface) :
    Document :=
  (doc : List (String × Surface)).map
    (fun p => if p.fst = id then (p.fst, surf) else p)

/-- `update(canvasID)`: looks the visible canvas up by id (a failed
lookup throws before anything is drawn — `SurfaceNotFound`), then draws
the entire buffer onto the entire visible canvas in one `drawImage` call
and returns the visible canvas's width. -/
def CACanvas.update (s : CACanvas) (doc : Document) (canvasID : String) :
    Except CAError (CACanvas × Document × Int) :=
  match Document.getElementById doc canvasID with
  | none => Except.error CAError.SurfaceNotFound
  | some surf =>
      let b : Blit :=
        { src := s.commands
          sx := 0, sy := 0, sw := s.bufferWidth, sh := s.bufferHeight
          dx := 0, dy := 0, dw := surf.width, dh := surf.height }
      let surf2 : Surface := { surf with blits := surf.blits ++ [b] }
      Except.ok (s, Document.setSurface doc canvasID surf2, surf.width)

/-! ## Helper lemmas -/

/-- `Math.floor(a / 2)` agrees with Euclidean division by 2. -/
theorem fdiv_two (a : Int) : Int.fdiv a 2 = a / 2 := by
  rw [Int.fdiv_eq_ediv]
  omega

/-- Rasterizing after one more operation: the new operation wins on the
pixels it covers. -/
theorem rasterize_append_single (l : List DrawCmd) (cmd : DrawCmd) (px py : Int) :
    rasterize (l ++ [cmd]) px py =
      if cmd.covers px py then some cmd.color else rasterize l px py := by
  simp [rasterize]

/-- Looking an id up after replacing the surface stored under it. -/
theorem getElementById_setSurface (doc : Document) (id : String) (surf surf2 : Surface)
    (h : Document.getElementById doc id = some surf) :
    Document.getElementById (Document.setSurface doc id surf2) id = some surf2 := by
  induction doc with
  | nil => simp [Document.getElementById] at h
  | cons p rest ih =>
      obtain ⟨k, v⟩ := p
      by_cases hk : k = id
      · subst hk
        have hhead : Document.setSurface ((k, v) :: rest) k surf2 =
            (k, surf2) :: Document.setSurface rest k surf2 := by
          simp [Document.setSurface]
        rw [hhead]
        simp [Document.getElementById]
      · have hhead : Document.setSurface ((k, v) :: rest) id surf2 =
            (k, v) :: Document.setSurface rest id surf2 := by
          simp [Document.setSurface, hk]
        simp only [Document.getElementById, if_neg hk] at h
        rw [hhead]
        simp only [Document.getElementById, if_neg hk]
        exact ih h

/-- The width/height setter is the identity on values inside the
reflection range `[0, 2147483647]`. -/
theorem canvasDimension_in_range (v dflt : Int) (h0 : 0 ≤ v)
    (h1 : v ≤ 2147483647) : canvasDimension v dflt = v := by
  unfold canvasDimension
  have hm : v % 4294967296 = v := by omega
  simp only [hm]
  rw [if_pos h1]

/-- The width/height setter yields the default on negative values (down
to `-2^31`; ToUint32 sends these to `[2^31, 2^32)`, outside the
reflection range). -/
theorem canvasDimension_neg (v dflt : Int) (h0 : v < 0)
    (h1 : -2147483648 ≤ v) : canvasDimension v dflt = dflt := by
  unfold canvasDimension
  have hm : v % 4294967296 = v + 4294967296 := by omega
  simp only [hm]
  rw [if_neg (by omega)]

/-- The marker radius `floor(cSize/2) - 1` is negative exactly when
`cSize ≤ 1`. -/
theorem marker_radius_neg_iff (c : Int) : Int.fdiv c 2 - 1 < 0 ↔ c ≤ 1 := by
  rw [fdiv_two]
  omega

/-- `draw` without the marker flag: one square fill, normal return. -/
theorem draw_no_marker_eq (s : CACanvas) (x y : Int) (col mcol : String) :
    s.draw x y col false mcol =
      ({ s with commands := s.commands ++
          [DrawCmd.fillRect (x * s.cSize) (y * s.cSize) s.cSize s.cSize col] },
       Except.ok s.cSize) := rfl

/-- `draw` with the marker flag and `cSize ≥ 2`: square fill, marker fill,
marker outline, normal return. -/
theorem draw_marker_ok_eq (s : CACanvas) (x y : Int) (col mcol : String)
    (h : 2 ≤ s.cSize) :
    s.draw x y col true mcol =
      ({ s with commands := s.commands ++
          [DrawCmd.fillRect (x * s.cSize) (y * s.cSize) s.cSize s.cSize col,
           DrawCmd.fillCircle (x * s.cSize + Int.fdiv s.cSize 2)
             (y * s.cSize + Int.fdiv s.cSize 2) (Int.fdiv s.cSize 2 - 1) mcol,
           DrawCmd.strokeCircle (x * s.cSize + Int.fdiv s.cSize 2)
             (y * s.cSize + Int.fdiv s.cSize 2) (Int.fdiv s.cSize 2 - 1) "#000000"] },
       Except.ok s.cSize) := by
  have hneg : ¬ (Int.fdiv s.cSize 2 - 1 < 0) := by
    rw [marker_radius_neg_iff]
    omega
  unfold CACanvas.draw
  rw [if_pos rfl, if_neg hneg]
  simp

/-- `draw` with the marker flag and `cSize ≤ 1`: the square fill stands,
then `arc` raises `IndexSizeError`. -/
theorem draw_marker_err_eq (s : CACanvas) (x y : Int) (col mcol : String)
    (h : s.cSize ≤ 1) :
    s.draw x y col true mcol =
      ({ s with commands := s.commands ++
          [DrawCmd.fillRect (x * s.cSize) (y * s.cSize) s.cSize s.cSize col] },
       Except.error CAError.IndexSizeError) := by
  have hneg : Int.fdiv s.cSize 2 - 1 < 0 := by
    rw [marker_radius_neg_iff]
    omega
  unfold CACanvas.draw
  rw [if_pos rfl, if_pos hneg]

/-- Every field of the instance except the command trace is untouched by
`draw`, in all cases. -/
theorem draw_preserves_fields (s : CACanvas) (x y : Int) (col mcol : String)
    (m : Bool) :
    (s.draw x y col m mcol).fst.size = s.size ∧
    (s.draw x y col m mcol).fst.cSize = s.cSize ∧
    (s.draw x y col m mcol).fst.bufferWidth = s.bufferWidth ∧
    (s.draw x y col m mcol).fst.bufferHeight = s.bufferHeight := by
  unfold CACanvas.draw
  cases m <;> simp <;> split <;> simp

/-! ## Claim theorems -/

/-- C4 counterexample: the claim asserts a `d*c` buffer for every
`d > 0`, `c > 0`, but the width/height setter clamps assigned values
above `2147483647` to the defaults: at `d = c = 46341` the product
`2147488281` exceeds the reflection range, so the buffer comes out
`300 × 150`, not `2147488281` square. -/
theorem C4_counterexample :
    0 < (46341 : Int) ∧
    (CACanvas.construct 46341 46341).bufferWidth ≠ 46341 * 46341 ∧
    (CACanvas.construct 46341 46341).bufferWidth = 300 ∧
    (CACanvas.construct 46341 46341).bufferHeight = 150 := by
  refine ⟨by decide, ?_, by decide, by decide⟩
  decide

/-- C4 (amended): for every `gridDimension d > 0` and `cellPixelSize
c > 0` whose product lies within the width/height reflection range
(`d*c ≤ 2147483647`), construction allocates a buffer of pixel size
exactly `d*c` on both axes; and for every instance whatsoever, no
subsequent `draw`, `drawLine` or `update` ever changes the buffer
dimensions. -/
theorem C4_buffer_dims_fixed (d c : Int) (hd : 0 < d) (hc : 0 < c)
    (hdc : d * c ≤ 2147483647) :
    ((CACanvas.construct d c).bufferWidth = d * c ∧
     (CACanvas.construct d c).bufferHeight = d * c) ∧
    (∀ (s : CACanvas) (x y : Int) (col mcol : String) (m : Bool),
      (s.draw x y col m mcol).fst.bufferWidth = s.bufferWidth ∧
      (s.draw x y col m mcol).fst.bufferHeight = s.bufferHeight) ∧
    (∀ (s : CACanvas) (x1 y1 x2 y2 : Int),
      (s.drawLine x1 y1 x2 y2).bufferWidth = s.bufferWidth ∧
      (s.drawLine x1 y1 x2 y2).bufferHeight = s.bufferHeight) ∧
    (∀ (s s2 : CACanvas) (doc doc2 : Document) (id : String) (w : Int),
      s.update doc id = Except.ok (s2, doc2, w) →
      s2.bufferWidth = s.bufferWidth ∧ s2.bufferHeight = s.bufferHeight) := by
  have hp : 0 ≤ d * c := le_of_lt (mul_pos hd hc)
  refine ⟨⟨canvasDimension_in_range _ _ hp hdc,
    canvasDimension_in_range _ _ hp hdc⟩, ?_, ?_, ?_⟩
  · intro s x y col mcol m
    exact ⟨(draw_preserves_fields s x y col mcol m).2.2.1,
      (draw_preserves_fields s x y col mcol m).2.2.2⟩
  · intro s x1 y1 x2 y2
    exact ⟨rfl, rfl⟩
  · intro s s2 doc doc2 id w h
    unfold CACanvas.update at h
    cases hfind : Document.getElementById doc id with
    | none => rw [hfind] at h; cases h
    | some surf =>
        rw [hfind] at h
        simp only [Except.ok.injEq, Prod.mk.injEq] at h
        obtain ⟨hs, -, -⟩ := h
        rw [← hs]
        exact ⟨rfl, rfl⟩

/-- C4 witness: at `d = 10`, `c = 20` the hypotheses (positivity and the
in-range product `200`) hold and the constructed buffer is `10 * 20`
pixels on each axis. -/
theorem C4_witness :
    (CACanvas.construct 10 20).bufferWidth = 10 * 20 ∧
    (CACanvas.construct 10 20).bufferHeight = 10 * 20 :=
  (C4_buffer_dims_fixed 10 20 (by decide) (by decide) (by decide)).1

/-- C5: `drawLine(x1, y1, x2, y2)` computes `offset = floor(cSize/2)` and
strokes exactly one solid-black segment from pixel
`(x1*cSize + offset, y1*cSize + offset)` to
`(x2*cSize + offset, y2*cSize + offset)` (the pixel centers of the two
named cells); nothing else about the instance changes, and the operation
produces no return value (it only yields the mutated state). -/
theorem C5_drawLine_centers (s : CACanvas) (x1 y1 x2 y2 : Int) :
    (s.drawLine x1 y1 x2 y2).commands =
      s.commands ++
        [DrawCmd.strokeLine (x1 * s.cSize + s.cSize / 2) (y1 * s.cSize + s.cSize / 2)
          (x2 * s.cSize + s.cSize / 2) (y2 * s.cSize + s.cSize / 2) "#000000"] ∧
    (s.drawLine x1 y1 x2 y2).size = s.size ∧
    (s.drawLine x1 y1 x2 y2).cSize = s.cSize ∧
    (s.drawLine x1 y1 x2 y2).bufferWidth = s.bufferWidth ∧
    (s.drawLine x1 y1 x2 y2).bufferHeight = s.bufferHeight := by
  refine ⟨?_, rfl, rfl, rfl, rfl⟩
  simp [CACanvas.drawLine, fdiv_two]

/-- C6 counterexample: the claim says construction fails with
`InvalidDimension` whenever `gridDimension ≤ 0`, but the constructor
performs no validation: at `gridDimension = 0`, `cellPixelSize = 20`
construction succeeds and raises nothing. -/
theorem C6_counterexample :
    ¬ ∃ e : CAError, CACanvas.create 0 20 = Except.error e := by
  rintro ⟨e, h⟩
  exact Except.noConfusion h

/-- C6 (amended): construction never fails, whatever the arguments: for
every `d` and `c` (positive or not) it returns a ready instance with the
given fields and an empty trace; the buffer's dimensions are the
width/height setter's reflection of `d*c` — the product itself when it
lies in `[0, 2147483647]`, and the defaults `300 × 150` when the product
is negative (down to `-2^31`; ToUint32 puts such values out of range).
The `InvalidDimension` error of the spec is a reimplementation
recommendation, not behavior of this code. -/
theorem C6_create_never_fails (d c : Int) :
    CACanvas.create d c = Except.ok (CACanvas.construct d c) ∧
    (CACanvas.construct d c).size = d ∧
    (CACanvas.construct d c).cSize = c ∧
    (0 ≤ d * c → d * c ≤ 2147483647 →
      (CACanvas.construct d c).bufferWidth = d * c ∧
      (CACanvas.construct d c).bufferHeight = d * c) ∧
    (d * c < 0 → -2147483648 ≤ d * c →
      (CACanvas.construct d c).bufferWidth = 300 ∧
      (CACanvas.construct d c).bufferHeight = 150) ∧
    (CACanvas.construct d c).commands = [] :=
  ⟨rfl, rfl, rfl,
   fun h0 h1 => ⟨canvasDimension_in_range _ _ h0 h1,
     canvasDimension_in_range _ _ h0 h1⟩,
   fun h0 h1 => ⟨canvasDimension_neg _ _ h0 h1,
     canvasDimension_neg _ _ h0 h1⟩,
   rfl⟩

/-- C6 witness: at `d = 0`, `c = 20` (in-range product `0`) the buffer
width is `0`, and at `d = -1`, `c = 20` (negative product `-20`) the
setter falls back to the default width `300`; the hypotheses of both
branches hold at these values. -/
theorem C6_witness :
    (CACanvas.construct 0 20).bufferWidth = 0 ∧
    (CACanvas.construct (-1) 20).bufferWidth = 300 := by
  constructor
  · have h := ((C6_create_never_fails 0 20).2.2.2.1 (by decide) (by decide)).1
    simpa using h
  · exact ((C6_create_never_fails (-1) 20).2.2.2.2.1 (by decide) (by decide)).1

/-- C7: `update` with an identifier that resolves to no surface raises
`SurfaceNotFound` (the null lookup is dereferenced before anything is
drawn), and performs no copy at all: the error return carries no new
document or canvas state, so caller-visible state is exactly as before
the call. -/
theorem C7_update_surface_not_found (s : CACanvas) (doc : Document) (id : String)
    (h : Document.getElementById doc id = none) :
    s.update doc id = Except.error CAError.SurfaceNotFound := by
  unfold CACanvas.update
  rw [h]

/-- C7 witness: an empty document resolves no id, and `update` on it
errors with `SurfaceNotFound`. -/
theorem C7_witness :
    (CACanvas.construct 10 20).update [] "screen" =
      Except.error CAError.SurfaceNotFound :=
  C7_update_surface_not_found (CACanvas.construct 10 20) [] "screen" rfl

/-- C1 counterexample: the claim promises that every `drawCell` call
returns `cSize` regardless of `withMarker`, but on an instance with
`cSize = 1` a marker call passes the negative radius `-1` to `arc` and
throws instead of returning. -/
theorem C1_counterexample :
    ((CACanvas.construct 10 1).draw 0 0 "#ff0000" true "#ffffff").snd ≠
      Except.ok ((CACanvas.construct 10 1).cSize) := by
  intro h
  rw [show ((CACanvas.construct 10 1).draw 0 0 "#ff0000" true "#ffffff").snd =
      Except.error CAError.IndexSizeError from rfl] at h
  cases h

/-- C1 (amended): every `drawCell` call first fills the `cSize`-square at
pixel origin `(x*cSize, y*cSize)` with `cellColor`, unconditionally
(regardless of `withMarker`, even when the call later throws); with
`withMarker = false` the filled square is exactly what the buffer then
shows on those pixels; and the call returns `cSize` whenever it completes
normally, i.e. when `withMarker = false` or `cSize ≥ 2` (with
`withMarker = true` and `cSize ≤ 1` it raises `IndexSizeError` after the
fill instead). -/
theorem C1_fill_unconditional (s : CACanvas) (x y : Int) (col mcol : String)
    (m : Bool) :
    (∃ rest : List DrawCmd,
      (s.draw x y col m mcol).fst.commands =
        s.commands ++
          DrawCmd.fillRect (x * s.cSize) (y * s.cSize) s.cSize s.cSize col :: rest) ∧
    ((m = false ∨ 2 ≤ s.cSize) → (s.draw x y col m mcol).snd = Except.ok s.cSize) ∧
    (m = false → ∀ px py : Int,
      x * s.cSize ≤ px → px < x * s.cSize + s.cSize →
      y * s.cSize ≤ py → py < y * s.cSize + s.cSize →
      rasterize (s.draw x y col m mcol).fst.commands px py = some col) := by
  cases m with
  | false =>
      rw [draw_no_marker_eq]
      refine ⟨⟨[], by simp⟩, fun _ => rfl, fun _ px py hx1 hx2 hy1 hy2 => ?_⟩
      simp only
      rw [rasterize_append_single]
      have hcov : (DrawCmd.fillRect (x * s.cSize) (y * s.cSize) s.cSize s.cSize
          col).covers px py = true := by
        simp only [DrawCmd.covers, decide_eq_true_eq]
        exact ⟨hx1, hx2, hy1, hy2⟩
      rw [hcov]
      simp [DrawCmd.color]
  | true =>
      by_cases h2 : 2 ≤ s.cSize
      · rw [draw_marker_ok_eq s x y col mcol h2]
        refine ⟨⟨[DrawCmd.fillCircle (x * s.cSize + Int.fdiv s.cSize 2)
            (y * s.cSize + Int.fdiv s.cSize 2) (Int.fdiv s.cSize 2 - 1) mcol,
          DrawCmd.strokeCircle (x * s.cSize + Int.fdiv s.cSize 2)
            (y * s.cSize + Int.fdiv s.cSize 2) (Int.fdiv s.cSize 2 - 1) "#000000"],
          by simp⟩, fun _ => rfl, fun hmf => ?_⟩
        exact absurd hmf (by simp)
      · rw [draw_marker_err_eq s x y col mcol (by omega)]
        refine ⟨⟨[], by simp⟩, fun hyp => ?_, fun hmf => absurd hmf (by simp)⟩
        exfalso
        rcases hyp with hf | hc2
        · exact absurd hf (by simp)
        · omega

/-- C1 witness: on a `10 × 10` grid with `cSize = 20`, after
`drawCell(3, 4, red)` the buffer pixel `(65, 85)` (inside the cell's
square `[60,80) × [80,100)`) shows red, and the hypotheses `m = false`
and the pixel bounds hold at these values. -/
theorem C1_witness :
    rasterize ((CACanvas.construct 10 20).draw 3 4 "#ff0000" false
      "#000000").fst.commands 65 85 = some "#ff0000" :=
  (C1_fill_unconditional (CACanvas.construct 10 20) 3 4 "#ff0000" "#000000"
    false).2.2 rfl 65 85 (by decide) (by decide) (by decide) (by decide)

/-- C2 counterexample: the claim promises that every marker call draws a
filled circle of radius `floor(cSize/2) - 1`; with `cSize = 1` the
claimed circle (radius `-1` centered at the cell origin) is never drawn —
the `arc` call throws `IndexSizeError` instead. -/
theorem C2_counterexample :
    ((CACanvas.construct 10 1).draw 0 0 "#ff0000" true "#00ff00").snd =
      Except.error CAError.IndexSizeError ∧
    ¬ (DrawCmd.fillCircle 0 0 (-1) "#00ff00" ∈
        ((CACanvas.construct 10 1).draw 0 0 "#ff0000" true "#00ff00").fst.commands) := by
  exact ⟨rfl, by decide⟩

/-- C2 (amended): for every marker call on an instance with `cSize ≥ 2`,
after the square fill the operation draws a filled circle of radius
`offset - 1` (where `offset = floor(cSize/2)`) centered at
`(x*cSize + offset, y*cSize + offset)` in `markerColor`, then strokes the
same circle in solid black; and every pixel of that circle (outline
included) lies within the cell's square. With `cSize ≤ 1` the call
instead raises `IndexSizeError` and draws no circle. -/
theorem C2_marker_circle (s : CACanvas) (x y : Int) (col mcol : String)
    (hc : 2 ≤ s.cSize) :
    ((s.draw x y col true mcol).fst.commands =
      s.commands ++
        [DrawCmd.fillRect (x * s.cSize) (y * s.cSize) s.cSize s.cSize col,
         DrawCmd.fillCircle (x * s.cSize + s.cSize / 2) (y * s.cSize + s.cSize / 2)
           (s.cSize / 2 - 1) mcol,
         DrawCmd.strokeCircle (x * s.cSize + s.cSize / 2) (y * s.cSize + s.cSize / 2)
           (s.cSize / 2 - 1) "#000000"]) ∧
    (∀ px py : Int,
      (px - (x * s.cSize + s.cSize / 2)) ^ 2 +
          (py - (y * s.cSize + s.cSize / 2)) ^ 2 ≤ (s.cSize / 2 - 1) ^ 2 →
      x * s.cSize ≤ px ∧ px < x * s.cSize + s.cSize ∧
      y * s.cSize ≤ py ∧ py < y * s.cSize + s.cSize) := by
  constructor
  · rw [draw_marker_ok_eq s x y col mcol hc]
    simp [fdiv_two]
  · intro px py h
    have ho1 : 1 ≤ s.cSize / 2 := by omega
    have ho2 : 2 * (s.cSize / 2) ≤ s.cSize := by omega
    generalize hX : x * s.cSize = X at h ⊢
    generalize hY : y * s.cSize = Y at h ⊢
    generalize hO : s.cSize / 2 = o at h ho1 ho2 ⊢
    have e1 : -(o - 1) ≤ px - (X + o) := by
      nlinarith [sq_nonneg (px - (X + o) + (o - 1)), sq_nonneg (py - (Y + o))]
    have e2 : px - (X + o) ≤ o - 1 := by
      nlinarith [sq_nonneg (px - (X + o) - (o - 1)), sq_nonneg (py - (Y + o))]
    have f1 : -(o - 1) ≤ py - (Y + o) := by
      nlinarith [sq_nonneg (py - (Y + o) + (o - 1)), sq_nonneg (px - (X + o))]
    have f2 : py - (Y + o) ≤ o - 1 := by
      nlinarith [sq_nonneg (py - (Y + o) - (o - 1)), sq_nonneg (px - (X + o))]
    omega

/-- C2 witness: with `cSize = 20` (so `offset = 10`, radius `9`),
`drawCell(3, 4, green, true, blue)` records the green square at `(60, 80)`,
a blue circle of radius `9` at center `(70, 90)` and its black outline —
the example of spec §8. -/
theorem C2_witness :
    ((CACanvas.construct 10 20).draw 3 4 "#00ff00" true "#0000ff").fst.commands =
      [DrawCmd.fillRect 60 80 20 20 "#00ff00",
       DrawCmd.fillCircle 70 90 9 "#0000ff",
       DrawCmd.strokeCircle 70 90 9 "#000000"] := by
  have h := (C2_marker_circle (CACanvas.construct 10 20) 3 4 "#00ff00" "#0000ff"
    (by decide)).1
  norm_num [CACanvas.construct] at h
  exact h

/-- C3: `update` on an id that resolves to a surface performs exactly one
blit whose source region is the full buffer bounds and whose destination
region is the full visible-surface bounds (scaling to fit when they
differ), and returns the visible surface's width; when the two regions
have equal size, every visible pixel afterwards equals the corresponding
buffer pixel (pixel-identical copy). -/
theorem C3_update_full_blit (s : CACanvas) (doc : Document) (id : String)
    (surf : Surface) (hfind : Document.getElementById doc id = some surf) :
    s.update doc id =
      Except.ok (s, Document.setSurface doc id
        { surf with blits := surf.blits ++
            [{ src := s.commands, sx := 0, sy := 0,
               sw := s.bufferWidth, sh := s.bufferHeight,
               dx := 0, dy := 0, dw := surf.width, dh := surf.height }] },
        surf.width) ∧
    Document.getElementById (Document.setSurface doc id
        { surf with blits := surf.blits ++
            [{ src := s.commands, sx := 0, sy := 0,
               sw := s.bufferWidth, sh := s.bufferHeight,
               dx := 0, dy := 0, dw := surf.width, dh := surf.height }] }) id =
      some { surf with blits := surf.blits ++
          [{ src := s.commands, sx := 0, sy := 0,
             sw := s.bufferWidth, sh := s.bufferHeight,
             dx := 0, dy := 0, dw := surf.width, dh := surf.height }] } ∧
    (surf.width = s.bufferWidth → surf.height = s.bufferHeight →
      ∀ px py : Int, 0 ≤ px → px < surf.width → 0 ≤ py → py < surf.height →
        Surface.pixel { surf with blits := surf.blits ++
            [{ src := s.commands, sx := 0, sy := 0,
               sw := s.bufferWidth, sh := s.bufferHeight,
               dx := 0, dy := 0, dw := surf.width, dh := surf.height }] } px py =
          rasterize s.commands px py) := by
  refine ⟨?_, ?_, ?_⟩
  · unfold CACanvas.update
    rw [hfind]
  · exact getElementById_setSurface doc id surf _ hfind
  · intro hw hh px py hpx0 hpxw hpy0 hpyh
    have hdw : surf.width ≠ 0 := by omega
    have hdh : surf.height ≠ 0 := by omega
    unfold Surface.pixel
    rw [List.foldl_append]
    simp only [List.foldl_cons, List.foldl_nil]
    have hin : Blit.inDest
        { src := s.commands, sx := 0, sy := 0,
          sw := s.bufferWidth, sh := s.bufferHeight,
          dx := 0, dy := 0, dw := surf.width, dh := surf.height } px py = true := by
      simp only [Blit.inDest, decide_eq_true_eq]
      refine ⟨hpx0, by omega, hpy0, by omega⟩
    rw [hin]
    simp only [if_true]
    show rasterize s.commands (0 + (px - 0) * s.bufferWidth / surf.width)
      (0 + (py - 0) * s.bufferHeight / surf.height) = rasterize s.commands px py
    rw [← hw, ← hh]
    congr 1
    · rw [Int.sub_zero, Int.mul_ediv_cancel px hdw, Int.zero_add]
    · rw [Int.sub_zero, Int.mul_ediv_cancel py hdh, Int.zero_add]

/-- C3 witness: a `10 × 10`, `cSize = 20` instance flushed to a same-size
(`200 × 200`) blank surface: `update` succeeds, returns width `200`, and
the surface afterwards holds the single full-bounds blit. -/
theorem C3_witness :
    (CACanvas.construct 10 20).update
        [("screen", { width := 200, height := 200, blits := [] })] "screen" =
      Except.ok (CACanvas.construct 10 20,
        Document.setSurface
          [("screen", { width := 200, height := 200, blits := [] })] "screen"
          { width := 200, height := 200, blits :=
              [{ src := [], sx := 0, sy := 0, sw := 200, sh := 200,
                 dx := 0, dy := 0, dw := 200, dh := 200 }] },
        200) :=
  (C3_update_full_blit (CACanvas.construct 10 20)
    [("screen", { width := 200, height := 200, blits := [] })] "screen"
    { width := 200, height := 200, blits := [] } rfl).1

/-- C8: two consecutive `drawCell` calls at the same cell with different
opaque cell colors (the first with any marker arguments, the second a
plain fill) leave the buffer showing only the second color on every pixel
of that cell's square: the second fill overwrites, with no blending. -/
theorem C8_second_fill_wins (s : CACanvas) (x y : Int) (col1 col2 mcol : String)
    (m1 : Bool) (hne : col1 ≠ col2) (px py : Int)
    (hx1 : x * s.cSize ≤ px) (hx2 : px < x * s.cSize + s.cSize)
    (hy1 : y * s.cSize ≤ py) (hy2 : py < y * s.cSize + s.cSize) :
    rasterize (((s.draw x y col1 m1 mcol).fst.draw x y col2 false
      mcol).fst.commands) px py = some col2 := by
  have hc : (s.draw x y col1 m1 mcol).fst.cSize = s.cSize :=
    (draw_preserves_fields s x y col1 mcol m1).2.1
  rw [draw_no_marker_eq]
  simp only
  rw [rasterize_append_single]
  have hcov : (DrawCmd.fillRect (x * (s.draw x y col1 m1 mcol).fst.cSize)
      (y * (s.draw x y col1 m1 mcol).fst.cSize)
      (s.draw x y col1 m1 mcol).fst.cSize
      (s.draw x y col1 m1 mcol).fst.cSize col2).covers px py = true := by
    rw [hc]
    simp only [DrawCmd.covers, decide_eq_true_eq]
    exact ⟨hx1, hx2, hy1, hy2⟩
  rw [hcov]
  simp [DrawCmd.color]

/-- C8 witness: cell `(3, 4)` of a `cSize = 20` instance drawn red then
green: pixel `(65, 85)` of the buffer shows green; the color
disequality and the pixel-bound hypotheses hold at these values. -/
theorem C8_witness :
    rasterize ((((CACanvas.construct 10 20).draw 3 4 "#ff0000" false
        "#000000").fst.draw 3 4 "#00ff00" false "#000000").fst.commands)
      65 85 = some "#00ff00" :=
  C8_second_fill_wins (CACanvas.construct 10 20) 3 4 "#ff0000" "#00ff00"
    "#000000" false (by decide) 65 85 (by decide) (by decide) (by decide)
    (by decide)

/-- C9 counterexample: the claim says drawing calls never fail for any
constructed instance, naming `cellPixelSize = 1` with `withMarker = true`
as accepted; precisely there `arc` receives the negative radius `-1` and
the call raises `IndexSizeError`. -/
theorem C9_counterexample :
    ((CACanvas.construct 10 1).draw 2 3 "#ff0000" true "#0000ff").snd =
      Except.error CAError.IndexSizeError := rfl

/-- C9 (amended): `drawLine` never fails (for any arguments it completes,
appending its single stroke), and `drawCell` completes without error for
all arguments except exactly the marker calls on an instance with
`cellPixelSize ≤ 1`, where the negative marker radius makes the backend
`arc` call raise `IndexSizeError`. -/
theorem C9_draw_failure_iff (s : CACanvas) (x y x1 y1 x2 y2 : Int)
    (col mcol : String) (m : Bool) :
    ((s.draw x y col m mcol).snd = Except.ok s.cSize ↔
      (m = false ∨ 2 ≤ s.cSize)) ∧
    ((s.draw x y col m mcol).snd = Except.error CAError.IndexSizeError ↔
      (m = true ∧ s.cSize ≤ 1)) ∧
    (s.drawLine x1 y1 x2 y2).commands =
      s.commands ++
        [DrawCmd.strokeLine (x1 * s.cSize + s.cSize / 2) (y1 * s.cSize + s.cSize / 2)
          (x2 * s.cSize + s.cSize / 2) (y2 * s.cSize + s.cSize / 2) "#000000"] := by
  refine ⟨?_, ?_, by simp [CACanvas.drawLine, fdiv_two]⟩
  · cases m with
    | false =>
        rw [draw_no_marker_eq]
        simp
    | true =>
        by_cases h2 : 2 ≤ s.cSize
        · rw [draw_marker_ok_eq s x y col mcol h2]
          simp [h2]
        · rw [draw_marker_err_eq s x y col mcol (by omega)]
          simp
          omega
  · cases m with
    | false =>
        rw [draw_no_marker_eq]
        simp
    | true =>
        by_cases h2 : 2 ≤ s.cSize
        · rw [draw_marker_ok_eq s x y col mcol h2]
          simp
          omega
        · rw [draw_marker_err_eq s x y col mcol (by omega)]
          simp
          omega

/-- C10: a successful `update` leaves the instance itself untouched — the
returned instance is the very same record, so its command trace (and
hence every buffer pixel), buffer dimensions, `size` and `cSize` all
coincide with the pre-call ones; only the looked-up surface gains a blit. -/
theorem C10_update_frame (s s2 : CACanvas) (doc doc2 : Document) (id : String)
    (w : Int) (h : s.update doc id = Except.ok (s2, doc2, w)) :
    s2 = s ∧ s2.commands = s.commands ∧
    s2.bufferWidth = s.bufferWidth ∧ s2.bufferHeight = s.bufferHeight ∧
    s2.size = s.size ∧ s2.cSize = s.cSize ∧
    (∀ px py : Int, rasterize s2.commands px py = rasterize s.commands px py) := by
  have hs : s2 = s := by
    unfold CACanvas.update at h
    cases hfind : Document.getElementById doc id with
    | none => rw [hfind] at h; cases h
    | some surf =>
        rw [hfind] at h
        simp only [Except.ok.injEq, Prod.mk.injEq] at h
        exact h.1.symm
  subst hs
  exact ⟨rfl, rfl, rfl, rfl, rfl, rfl, fun _ _ => rfl⟩

/-- C10 witness: a concrete successful flush (blank `300 × 150` surface,
`10 × 10` grid at `cSize = 20`) returns the untouched instance. -/
theorem C10_witness :
    CACanvas.construct 10 20 = CACanvas.construct 10 20 :=
  (C10_update_frame (CACanvas.construct 10 20) (CACanvas.construct 10 20)
    [("screen", { width := 300, height := 150, blits := [] })]
    (Document.setSurface
      [("screen", { width := 300, height := 150, blits := [] })] "screen"
      { width := 300, height := 150, blits :=
          [{ src := [], sx := 0, sy := 0, sw := 200, sh := 200,
             dx := 0, dy := 0, dw := 300, dh := 150 }] })
    "screen" 300 rfl).1
